import Mathlib

/-
Verification of the TAGIMG image-tagging script (src/script.py).

The script batch-processes images: it calls a remote analysis model with
retry/backoff, derives marketing metadata (title, keywords, filename,
use-case and audience tags) from the JSON-shaped response, and emits one
report row per image.

This file shallowly embeds the pure parts of the script over Lean strings
and association lists.  Python strings are modelled as Lean `String`
(operating on `String.data`, the list of characters, so that every
operation is structural and kernel-evaluable).  Python dicts are modelled
as insertion-ordered association lists (`PyDict`).  External collaborators
are parameters: the JSON decoder `json.loads` is an oracle
`String → Option PyDict`, the per-attempt behaviour of the remote API is
an environment `Nat → ApiOutcome`, and the destination-directory state of
`os.path.exists` is a predicate `String → Bool`.
-/

/-! ## Python string primitives -/

/-- Characters stripped by the Python `str.strip()` method. -/
def pyIsSpace (c : Char) : Bool :=
  c = ' ' || c = '\t' || c = '\n' || c = '\r' || c = '\x0b' || c = '\x0c'

/-- Python slice `s[:n]` for a nonnegative `n`. -/
def pyTake (s : String) (n : Nat) : String := ⟨s.data.take n⟩

/-- Python slice `s[n:]` for a nonnegative `n`. -/
def pyDrop (s : String) (n : Nat) : String := ⟨s.data.drop n⟩

/-- Python slice `s[:k]` for a possibly negative `k` (negative counts from the end, clamped at 0). -/
def pySliceTo (s : String) (k : Int) : String :=
  if 0 ≤ k then pyTake s k.toNat else pyTake s (s.data.length - (-k).toNat)

/-- Python `str.strip()`: whitespace removed from both ends. -/
def pyStrip (s : String) : String :=
  ⟨((s.data.dropWhile pyIsSpace).reverse.dropWhile pyIsSpace).reverse⟩

/-- Python `str.lower()` (ASCII, which covers every string the script manipulates). -/
def pyLower (s : String) : String := ⟨s.data.map Char.toLower⟩

/-- Python `str.capitalize()`: first character upper-cased, the rest lower-cased. -/
def pyCapitalize (s : String) : String :=
  match s.data with
  | [] => ""
  | c :: cs => ⟨Char.toUpper c :: cs.map Char.toLower⟩

/-- Python `s.startswith(p)`. -/
def pyStartsWith (s p : String) : Bool := pyTake s p.data.length == p

/-- Python `s.endswith(p)`. -/
def pyEndsWith (s p : String) : Bool :=
  p.data.length ≤ s.data.length && pyDrop s (s.data.length - p.data.length) == p

/-- Helper for `pySplitWs`: accumulates the current run of non-space characters (reversed). -/
def splitWsGo : List Char → List Char → List String
  | [], acc => if acc = [] then [] else [⟨acc.reverse⟩]
  | c :: rest, acc =>
    if pyIsSpace c then
      if acc = [] then splitWsGo rest [] else (⟨acc.reverse⟩ : String) :: splitWsGo rest []
    else splitWsGo rest (c :: acc)

/-- Python `str.split()` with no argument: maximal runs of non-whitespace characters. -/
def pySplitWs (s : String) : List String := splitWsGo s.data []

/-- Python `sep.join(xs)`. -/
def pyJoinL (sep : String) : List String → String
  | [] => ""
  | [x] => x
  | x :: xs => x ++ sep ++ pyJoinL sep xs

/-- Python `s.rsplit(' ', 1)[0]`: everything before the last space, or all of `s` if it has none. -/
def pyRsplitHead (s : String) : String :=
  if s.data.contains ' ' then ⟨((s.data.reverse.dropWhile (fun c => c ≠ ' ')).tail).reverse⟩
  else s

/-- Python `s.replace(" ", "_")` (single-character pattern, so a plain character map). -/
def spaceToUnderscore (s : String) : String :=
  ⟨s.data.map (fun c => if c = ' ' then '_' else c)⟩

/-- Python `s.replace("_", " ")`. -/
def underscoreToSpace (s : String) : String :=
  ⟨s.data.map (fun c => if c = '_' then ' ' else c)⟩

/-- Python `s.replace(" ", "")`: all spaces removed. -/
def removeSpaces (s : String) : String := ⟨s.data.filter (fun c => c ≠ ' ')⟩

/-- Membership in the regex word class `\w` (ASCII): letters, digits and underscore. -/
def isWordChar (c : Char) : Bool := c.isAlphanum || c = '_'

/-- Python `re.sub(r'\W+', '', s)` and `re.sub(r'[^a-zA-Z0-9_]+', '', s)`: non-word characters removed. -/
def stripNonWord (s : String) : String := ⟨s.data.filter isWordChar⟩

/-- Python `os.path.basename`: the component after the last slash. -/
def pyBasename (s : String) : String := ⟨(s.data.reverse.takeWhile (fun c => c ≠ '/')).reverse⟩

/-- Python `os.path.dirname`: everything before the last slash (trailing slashes of the head stripped unless the head is all slashes); empty when there is no slash. -/
def pyDirname (s : String) : String :=
  if s.data.contains '/' then
    let head := (s.data.reverse.dropWhile (fun c => c ≠ '/')).reverse
    if head.all (fun c => c = '/') then ⟨head⟩ else ⟨head.reverse.dropWhile (fun c => c = '/') |>.reverse⟩
  else ""

/-- Python `os.path.join(a, b)` for the posix shapes the script produces. -/
def pyJoinPath (a b : String) : String :=
  if pyTake b 1 = "/" then b
  else if a = "" then b
  else if pyEndsWith a "/" then a ++ b
  else a ++ "/" ++ b

/-- Helper for `pySplitext`: splits `comp` (a path component with leading dots already removed) at its last dot. -/
def splitLastDot (comp : List Char) : List Char × List Char :=
  if comp.contains '.' then
    let r := comp.reverse
    ((r.dropWhile (fun c => c ≠ '.')).tail.reverse, '.' :: (r.takeWhile (fun c => c ≠ '.')).reverse)
  else (comp, [])

/-- Python `os.path.splitext`: splits off the extension (including its dot) of the last path component; leading dots of the component never start an extension. -/
def pySplitext (s : String) : String × String :=
  let dir := s.data.take (s.data.length - (s.data.reverse.takeWhile (fun c => c ≠ '/')).length)
  let comp := (s.data.reverse.takeWhile (fun c => c ≠ '/')).reverse
  let lead := comp.takeWhile (fun c => c = '.')
  let rest := comp.dropWhile (fun c => c = '.')
  let (root, ext) := splitLastDot rest
  (⟨dir ++ lead ++ root⟩, ⟨ext⟩)

/-! ## Python dict model -/

/-- Values stored in the analysis-result and report-row dicts: strings or lists of strings. -/
inductive PyVal where
  | str (s : String)
  | list (xs : List String)
  deriving DecidableEq, Repr

/-- An insertion-ordered Python dict with string keys. -/
abbrev PyDict := List (String × PyVal)

/-- Python `d[k]` / `d.get(k)`: the value at the first (hence, for duplicate-free dicts, the only) binding of `k`. -/
def dget : PyDict → String → Option PyVal
  | [], _ => none
  | (k', v) :: rest, k => if k' == k then some v else dget rest k

/-- Python `d.get(k, dflt)` where a string is expected. -/
def dgetStr (d : PyDict) (k : String) (dflt : String) : String :=
  match dget d k with
  | some (PyVal.str s) => s
  | _ => dflt

/-- Python `d.get(k, [])` where a list of strings is expected. -/
def dgetList (d : PyDict) (k : String) : List String :=
  match dget d k with
  | some (PyVal.list xs) => xs
  | _ => []

/-- Python `d[k] = v`: replaces the binding in place, or appends a new one. -/
def dset : PyDict → String → PyVal → PyDict
  | [], k, v => [(k, v)]
  | (k', v') :: rest, k, v => if k' == k then (k, v) :: rest else (k', v') :: dset rest k v
def DEFAULT_ABBREVIATIONS : List (String × String) := [
  ("abstract", "Abstr"),
  ("illustration", "Illust"),
  ("painting", "Paint"),
  ("digital", "Dig"),
  ("art", "Art"),
  ("commercial", "Com"),
  ("advertising", "Adv"),
  ("marketing", "Mkt"),
  ("editorial", "Edit"),
  ("social media", "Social"),
  ("web design", "Web"),
  ("creative", "Cre"),
  ("artists", "Art"),
  ("designers", "Des"),
  ("marketers", "Mkt"),
  ("editors", "Edit"),
  ("content creators", "Cont"),
  ("small business", "SmallBiz"),
  ("image", "Img"),
  ("fantasy", "Fant"),
  ("realistic", "Real"),
  ("portrait", "Port"),
  ("landscape", "Land"),
  ("unique", "Uniq"),
  ("original", "Orig"),
  ("impactful", "Imp"),
  ("eye-catching", "Eye"),
  ("exclusive", "Excl"),
  ("menacing", "Menac"),
  ("heroic", "Hero"),
  ("stylized", "Styl"),
  ("detailed", "Deta"),
  ("evocative", "Evoc"),
  ("striking", "Stri"),
  ("minimalist", "Min"),
  ("geometric", "Geom"),
  ("organic", "Org"),
  ("vibrant", "Vibr"),
  ("dynamic", "Dyn"),
  ("elegant", "Eleg"),
  ("modern", "Mod"),
  ("vintage", "Vint"),
  ("rustic", "Rust"),
  ("urban", "Urb"),
  ("nature", "Nat"),
  ("people", "Peop"),
  ("animal", "Anim"),
  ("object", "Obj"),
  ("concept", "Conc"),
  ("background", "Bkg"),
  ("texture", "Text"),
  ("pattern", "Patt"),
  ("graphic", "Graph"),
  ("design", "Des"),
  ("template", "Temp"),
  ("mockup", "Mock"),
  ("print", "Prnt"),
  ("website", "Web"),
  ("banner", "Ban"),
  ("poster", "Post"),
  ("brochure", "Broch"),
  ("flyer", "Fly"),
  ("card", "Card"),
  ("invitation", "Invit"),
  ("branding", "Brand"),
  ("identity", "Ident"),
  ("corporate", "Corp"),
  ("business", "Biz"),
  ("professional", "Prof"),
  ("clean", "Clean"),
  ("simple", "Simp"),
  ("complex", "Complx"),
  ("bright", "Bright"),
  ("dark", "Dark"),
  ("colorful", "Color"),
  ("monochrome", "Mono"),
  ("grayscale", "Gray"),
  ("sepia", "Sepia"),
  ("warm", "Warm"),
  ("cool", "Cool"),
  ("summer", "Sum"),
  ("winter", "Win"),
  ("autumn", "Aut"),
  ("spring", "Spr"),
  ("night", "Night"),
  ("day", "Day"),
  ("sunrise", "Sunr"),
  ("sunset", "Suns"),
  ("indoors", "In"),
  ("outdoors", "Out"),
  ("close-up", "Close"),
  ("macro", "Mac"),
  ("wide", "Wide"),
  ("aerial", "Aer"),
  ("lifestyle", "Life"),
  ("travel", "Trav"),
  ("food", "Food"),
  ("fashion", "Fash"),
  ("beauty", "Beaut"),
  ("health", "Health"),
  ("technology", "Tech"),
  ("education", "Educ"),
  ("science", "Sci"),
  ("finance", "Fin"),
  ("real estate", "RE"),
  ("event", "Evnt"),
  ("holiday", "Holi"),
  ("celebration", "Celebr"),
  ("music", "Music"),
  ("sport", "Sport"),
  ("game", "Game"),
  ("religion", "Relig"),
  ("culture", "Cult"),
  ("history", "Hist"),
  ("family", "Fam"),
  ("friendship", "Friend"),
  ("love", "Love"),
  ("happy", "Hap"),
  ("sad", "Sad"),
  ("angry", "Angry"),
  ("calm", "Calm"),
  ("excited", "Excit"),
  ("serious", "Ser"),
  ("playful", "Play"),
  ("powerful", "Pow"),
  ("gentle", "Gent"),
  ("dynamic", "Dyn"),
  ("static", "Stat"),
  ("isolated", "Isol"),
  ("group", "Group"),
  ("single", "Sing"),
  ("multiple", "Mult"),
  ("front", "Front"),
  ("back", "Back"),
  ("side", "Side"),
  ("top", "Top"),
  ("bottom", "Bot"),
  ("view", "View"),
  ("shot", "Shot"),
  ("composition", "Comp"),
  ("depth", "Depth"),
  ("focus", "Foc"),
  ("light", "Light"),
  ("shadow", "Shad"),
  ("tone", "Tone"),
  ("color", "Col"),
  ("shape", "Shape"),
  ("form", "Form"),
  ("line", "Line"),
  ("space", "Space"),
  ("balance", "Bal"),
  ("harmony", "Harm"),
  ("contrast", "Contr"),
  ("unity", "Unity"),
  ("rhythm", "Rhythm"),
  ("emphasis", "Emph"),
  ("pattern", "Patt"),
  ("texture", "Text"),
  ("surface", "Surf"),
  ("material", "Mat"),
  ("element", "Elem"),
  ("detail", "Det"),
  ("structure", "Struct"),
  ("process", "Proc"),
  ("concept", "Conc"),
  ("idea", "Idea"),
  ("symbol", "Symb"),
  ("metaphor", "Metaph"),
  ("emotion", "Emo"),
  ("feeling", "Feel"),
  ("mood", "Mood"),
  ("atmosphere", "Atm"),
  ("story", "Story"),
  ("narrative", "Narr"),
  ("message", "Msg"),
  ("meaning", "Mean"),
  ("purpose", "Purp"),
  ("function", "Func"),
  ("use", "Use"),
  ("application", "Appl"),
  ("solution", "Sol"),
  ("benefit", "Ben"),
  ("advantage", "Adv"),
  ("value", "Val"),
  ("quality", "Qual"),
  ("style", "Style"),
  ("technique", "Techn"),
  ("medium", "Med"),
  ("genre", "Genre"),
  ("category", "Cat"),
  ("type", "Type"),
  ("kind", "Kind")]
def SYNONYMS : List (String × List String) := [
  ("helmet", ["headgear", "casque", "helm", "protective headwear"]),
  ("mask", ["face covering", "disguise", "visage", "facial mask", "face mask"]),
  ("eyes", ["optics", "orbs", "peepers", "visual organs", "sight organs"]),
  ("horns", ["antlers", "protrusions", "spikes", "pointed growths", "horn-like structures"]),
  ("illustration", ["artwork", "drawing", "depiction", "graphic art", "pictorial representation"]),
  ("knight", ["warrior", "cavalier", "mounted soldier", "armored fighter"]),
  ("portrait", ["image", "likeness", "representation", "figure", "depiction of a person"]),
  ("landscape", ["scenery", "view", "vista", "natural vista", "geographic view"]),
  ("design", ["composition", "layout", "art", "arrangement", "visual plan"]),
  ("abstract", ["non-representational", "conceptual", "symbolic", "non-figurative", "unrealistic"]),
  ("unique", ["original", "distinctive", "singular", "exclusive", "uncommon", "rare"]),
  ("original", ["unique", "novel", "fresh", "authentic", "new", "innovative"]),
  ("impactful", ["striking", "powerful", "impressive", "moving", "forceful", "effective"]),
  ("eye-catching", ["arresting", "noticeable", "standout", "attention-grabbing", "striking", "conspicuous"]),
  ("exclusive", ["limited", "rare", "one-of-a-kind", "uncommon", "restricted", "private"]),
  ("serenity", ["calmness", "peacefulness", "tranquility", "peace", "stillness", "quietude"]),
  ("adventure", ["exploration", "journey", "expedition", "quest", "thrill", "excitement"]),
  ("romance", ["affection", "love", "intimacy", "passion", "courtship", "tenderness"]),
  ("success", ["achievement", "triumph", "victory", "accomplishment", "prosperity", "fulfillment"]),
  ("mountain", ["peak", "mount", "summit", "highland", "upland"]),
  ("lake", ["pond", "reservoir", "pool", "body of water", "inland sea"]),
  ("sunset", ["sundown", "dusk", "evening", "twilight", "setting sun"]),
  ("water", ["liquid", "H2O", "aqua", "fluid", "beverage"]),
  ("sky", ["heavens", "firmament", "atmosphere", "airspace", "upper atmosphere"]),
  ("trees", ["woods", "forest", "grove", "woodland", "timber"]),
  ("reflection", ["mirror image", "image", "replication", "duplication", "reproduction"]),
  ("orange sky", ["fiery sky", "amber sky", "sunset sky", "colorful sky", "vibrant sky"]),
  ("calmness", ["serenity", "tranquility", "peace", "stillness", "quiet"]),
  ("peacefulness", ["serenity", "calmness", "tranquility", "quietude", "harmony"]),
  ("tranquility", ["serenity", "calmness", "peacefulness", "repose", "placidity"]),
  ("peace", ["serenity", "tranquility", "calmness", "harmony", "restfulness"]),
  ("stillness", ["quietness", "silence", "hush", "motionlessness", "immobility"]),
  ("quietude", ["quietness", "tranquility", "serenity", "peace", "calm"]),
  ("exploration", ["adventure", "discovery", "investigation", "voyage", "travel"]),
  ("journey", ["trip", "voyage", "travel", "adventure", "excursion"]),
  ("expedition", ["journey", "adventure", "voyage", "exploration", "mission"]),
  ("quest", ["adventure", "mission", "search", "pursuit", "endeavor"]),
  ("thrill", ["excitement", "adventure", "rush", "kick", "stimulation"]),
  ("excitement", ["thrill", "adventure", "enthusiasm", "agitation", "arousal"]),
  ("affection", ["love", "romance", "tenderness", "fondness", "warmth"]),
  ("love", ["affection", "romance", "passion", "devotion", "adoration"]),
  ("intimacy", ["closeness", "affection", "familiarity", "nearness", "warmth"]),
  ("passion", ["love", "romance", "ardor", "zeal", "fervor"]),
  ("courtship", ["romance", "dating", "engagement", "wooing", "suing"]),
  ("tenderness", ["affection", "gentleness", "kindness", "warmth", "softness"]),
  ("achievement", ["success", "accomplishment", "attainment", "realization", "feat"]),
  ("triumph", ["victory", "success", "conquest", "mastery", "win"]),
  ("victory", ["triumph", "win", "success", "conquest", "defeat of opponent"]),
  ("accomplishment", ["achievement", "success", "feat", "realization", "fulfillment"]),
  ("prosperity", ["wealth", "affluence", "riches", "fortune", "success"]),
  ("fulfillment", ["satisfaction", "achievement", "success", "contentment", "gratification"]),
  ("peak", ["mountain", "summit", "mountaintop", "height", "apex"]),
  ("mount", ["mountain", "peak", "rise", "hill", "elevation"]),
  ("summit", ["peak", "top", "apex", "crest", "highest point"]),
  ("highland", ["mountainous region", "upland", "elevated land", "mountain area", "high country"]),
  ("upland", ["highland", "elevated region", "plateau", "high ground", "hill country"]),
  ("pond", ["small lake", "pool", "waterhole", "basin", "still water"]),
  ("reservoir", ["artificial lake", "water storage", "basin", "tank", "water supply"]),
  ("pool", ["pond", "puddle", "watering hole", "basin", "small body of water"]),
  ("body of water", ["lake", "river", "sea", "ocean", "stream"]),
  ("inland sea", ["large lake", "landlocked sea", "salt lake", "great lake", "large body of water"]),
  ("sundown", ["sunset", "dusk", "evening", "twilight", "nightfall"]),
  ("dusk", ["sunset", "twilight", "evening", "sundown", "gloaming"]),
  ("evening", ["dusk", "nightfall", "sunset", "twilight", "late day"]),
  ("twilight", ["dusk", "sunset", "evening", "gloaming", "crepuscule"]),
  ("setting sun", ["sunset", "sundown", "evening sun", "sun going down", "sun dipping below horizon"]),
  ("liquid", ["water", "fluid", "beverage", "solution", "potion"]),
  ("aqua", ["water", "light blue", "cyan", "turquoise", "watery color"]),
  ("fluid", ["liquid", "water", "flowing substance", "liquid matter", "molten"]),
  ("beverage", ["drink", "liquid", "refreshment", "potion", "libation"]),
  ("heavens", ["sky", "firmament", "celestial sphere", "upper atmosphere", "air"]),
  ("firmament", ["sky", "heavens", "vault of heaven", "expanse of sky", "atmosphere"]),
  ("atmosphere", ["sky", "air", "airspace", "gases surrounding earth", "ambient air"]),
  ("airspace", ["sky", "air", "upper atmosphere", "flight space", "air lanes"]),
  ("upper atmosphere", ["sky", "stratosphere", "ionosphere", "exosphere", "outer air"]),
  ("woods", ["forest", "trees", "woodland", "grove", "copse"]),
  ("forest", ["woods", "woodland", "trees", "jungle", "rainforest"]),
  ("grove", ["small forest", "orchard", "copse", "thicket", "woodlot"]),
  ("woodland", ["forest", "woods", "grove", "copse", "forested area"]),
  ("timber", ["wood", "lumber", "logs", "wood for building", "forest resources"]),
  ("mirror image", ["reflection", "duplicate", "reversal", "copy", "echo"]),
  ("duplicate", ["copy", "replica", "reproduction", "clone", "mirror image"]),
  ("reversal", ["opposite", "inverse", "contrary", "backward", "mirror image"]),
  ("copy", ["duplicate", "replica", "reproduction", "imitation", "clone"]),
  ("echo", ["reverberation", "reflection", "resonation", "repeat", "mirror image"]),
  ("fiery sky", ["orange sky", "red sky", "vibrant sky", "colorful sky", "dramatic sky"]),
  ("amber sky", ["orange sky", "yellow-orange sky", "golden sky", "warm sky", "sunset sky"]),
  ("sunset sky", ["evening sky", "twilight sky", "dusk sky", "sky at sunset", "sky during sundown"]),
  ("colorful sky", ["vibrant sky", "multicolored sky", "rainbow sky", "bright sky", "sky with many colors"]),
  ("vibrant sky", ["colorful sky", "bright sky", "intense sky", "lively sky", "dynamic sky"]),
  ("attention-grabbing", ["eye-catching", "striking", "noticeable", "arresting", "prominent"]),
  ("attention-getting", ["eye-catching", "noticeable", "striking", "arresting", "prominent"]),
  ("noticeable", ["eye-catching", "visible", "perceptible", "observable", "evident"]),
  ("arresting", ["eye-catching", "striking", "captivating", "compelling", "fascinating"]),
  ("standout", ["eye-catching", "prominent", "remarkable", "distinctive", "conspicuous"]),
  ("prominent", ["standout", "noticeable", "conspicuous", "obvious", "remarkable"]),
  ("remarkable", ["notable", "outstanding", "exceptional", "striking", "standout"]),
  ("distinctive", ["unique", "characteristic", "peculiar", "special", "standout"]),
  ("conspicuous", ["noticeable", "obvious", "evident", "prominent", "standout"])]

/-! ## Metadata derivation (script.py, lines 446-723)

Each definition translates the Python function of the same name; helper
names (`kwTokens`, `gnfBase`, ...) factor inline code of the source so the
theorems below can refer to intermediate values. -/

/-- Lookup in DEFAULT_ABBREVIATIONS, Python `DEFAULT_ABBREVIATIONS.get(k, dflt)`.  The source dict literal binds `dynamic`, `concept`, `texture` and `pattern` twice with identical values, so first-binding lookup agrees with the Python dict. -/
def abbrevGet (k dflt : String) : String :=
  match DEFAULT_ABBREVIATIONS.find? (fun p => p.1 == k) with
  | some p => p.2
  | none => dflt

/-- Lookup in SYNONYMS, Python `SYNONYMS.get(w)` / `w in SYNONYMS`. -/
def synGet (w : String) : Option (List String) :=
  match SYNONYMS.find? (fun p => p.1 == w) with
  | some p => some p.2
  | none => none

/-- Adds an element to an insertion-ordered set, Python `set.add`.  Python set iteration order is unspecified; this model fixes insertion order, which is irrelevant to every property proved below. -/
def insertSet (s : List String) (x : String) : List String :=
  if x ∈ s then s else s ++ [x]

/-- The three lowered texts scanned by `generate_keywords`, `suggest_use_cases` and `suggest_target_audience` (script.py lines 501-505, 627-631, 657-661). -/
def textsToProcess (analysis : PyDict) (title : String) : List String :=
  [pyLower title,
   pyLower (dgetStr analysis "basic_description" ""),
   pyLower (dgetStr analysis "persuasive_description" "")]

/-- The token set built by `suggest_use_cases` / `suggest_target_audience` (lines 626-635, 656-665): every whitespace token of the three texts. -/
def kwTokens (analysis : PyDict) (title : String) : List String :=
  (textsToProcess analysis title).foldl (fun a t => (pySplitWs t).foldl insertSet a) []

/-- Keyword accumulation step of `generate_keywords` (lines 508-512): a token in SYNONYMS contributes its synonyms instead of itself. -/
def addKeyword (a : List String) (w : String) : List String :=
  match synGet w with
  | some syns => syns.foldl insertSet a
  | none => insertSet a w

/-- The set built by the loops of `generate_keywords` (lines 500-512). -/
def rawKeywords (analysis : PyDict) (title : String) : List String :=
  (textsToProcess analysis title).foldl (fun a t => (pySplitWs t).foldl addKeyword a) []

/-- The stop-word set of `generate_keywords` (line 515). -/
def commonWords : List String := ["a", "an", "the", "for", "with", "of", "is", ""]

/-- script.py lines 498-518.  The `description` parameter is unused, exactly as in the source. -/
def generate_keywords (analysis : PyDict) (title : String) (description : String) : List String :=
  ((rawKeywords analysis title).filter (fun k => ¬ k ∈ commonWords)).take 25

/-- The `title_parts` list of `generate_main_title` (script.py lines 525-530): up to two key styles with spaces removed, then up to two distinctive elements with non-word characters stripped, empty originals skipped by the comprehension guards. -/
def mtParts (analysis : PyDict) : List String :=
  (((dgetList analysis "key_styles").take 2).filter (fun s => s ≠ "")).map removeSpaces
  ++ (((dgetList analysis "distinctive_elements").take 2).filter (fun s => s ≠ "")).map stripNonWord

/-- script.py lines 520-541. -/
def generate_main_title (analysis : PyDict) : String :=
  if dgetStr analysis "suggested_title" "" ≠ "" then dgetStr analysis "suggested_title" ""
  else if mtParts analysis ≠ [] then pyCapitalize (pyJoinL " " (mtParts analysis))
  else if dgetStr analysis "basic_description" "" ≠ "" then
    pyCapitalize (pyTake (dgetStr analysis "basic_description" "") 50)
  else
    -- lines 539-541: `filename = os.path.basename("")`, so `name_part` is always empty
    pyCapitalize (underscoreToSpace (pySplitext (pyBasename "")).1) ++ " - Image"

/-- script.py lines 606-622. -/
def generate_concise_description (analysis : PyDict) : String :=
  let suggested_title := dgetStr analysis "suggested_title" ""
  let key_styles := dgetList analysis "key_styles"
  let distinctive_elements := dgetList analysis "distinctive_elements"
  let base_description := dgetStr analysis "basic_description" ""
  let parts :=
    (if suggested_title ≠ "" then (pySplitWs (pyLower suggested_title)).take 2 else [])
    ++ (if key_styles ≠ [] then (key_styles.take 1).map (fun style => abbrevGet (pyLower style) (pyTake style 4)) else [])
    ++ (if distinctive_elements ≠ [] then (distinctive_elements.take 1).map (fun elem => abbrevGet (pyLower elem) (pyTake elem 4)) else [])
    ++ (if base_description ≠ "" then ((pySplitWs base_description).take 2).map (fun word => abbrevGet (pyLower word) (pyTake word 3)) else [])
  pyTake (pyJoinL "_" parts) 50

/-- script.py lines 624-652. -/
def suggest_use_cases (analysis : PyDict) (title : String) (description : String) : List String :=
  let keywords := kwTokens analysis title
  let use_cases :=
    (if "advertising" ∈ keywords ∨ "commercial" ∈ keywords ∨ "marketing" ∈ keywords then ["Commercial"] else [])
    ++ (if "editorial" ∈ keywords then ["Editorial"] else [])
    ++ (if "social" ∈ keywords ∨ "media" ∈ keywords then ["Social Media"] else [])
    ++ (if "web" ∈ keywords ∨ "design" ∈ keywords then ["Web Design"] else [])
    ++ (if "creative" ∈ keywords ∨ "art" ∈ keywords ∨ "illustration" ∈ keywords ∨ "painting" ∈ keywords ∨ "drawing" ∈ keywords then ["Creative"] else [])
  if use_cases ≠ [] then (use_cases.map (fun use => abbrevGet use use)).take 3
  else ["Image"]

/-- script.py lines 654-683. -/
def suggest_target_audience (analysis : PyDict) (title : String) (description : String) : List String :=
  let keywords := kwTokens analysis title
  let audiences :=
    (if "artists" ∈ keywords ∨ "art" ∈ keywords then ["Artists"] else [])
    ++ (if "designers" ∈ keywords ∨ "design" ∈ keywords then ["Designers"] else [])
    ++ (if "marketers" ∈ keywords ∨ "marketing" ∈ keywords then ["Marketers"] else [])
    ++ (if "editors" ∈ keywords ∨ "editorial" ∈ keywords then ["Editors"] else [])
    ++ (if "content" ∈ keywords ∨ "creators" ∈ keywords then ["Content Creators"] else [])
    ++ (if "small" ∈ keywords ∨ "business" ∈ keywords then ["Small Business"] else [])
  if audiences ≠ [] then (audiences.map (fun ta => abbrevGet ta ta)).take 3
  else ["Data"]

/-! ## New-filename generation (script.py, lines 685-723)

The destination-directory state probed by `os.path.exists` is a parameter
`ex : String → Bool`; the unbounded `while` collision loop is given fuel
(each probe consumes one unit), which suffices for every directory state
considered in the theorems below. -/

/-- The filename parts assembled by `generate_new_filename` (lines 687-699). -/
def gnfParts (analysis : PyDict) : List String :=
  let concise_description := generate_concise_description analysis
  let use_cases := suggest_use_cases analysis "" ""
  let target_audience := suggest_target_audience analysis "" ""
  let base_description := pyLower (dgetStr analysis "basic_description" "")
  [concise_description]
  ++ (if base_description ≠ "" then ((pySplitWs base_description).take 2).map (fun word => abbrevGet word (pyTake word 3)) else [])
  ++ (if use_cases ≠ [] then use_cases.take 2 else [])
  ++ (if target_audience ≠ [] then target_audience.take 2 else [])

/-- The sanitized base filename (lines 701-702): empty parts dropped by `filter(None, ...)`, spaces replaced by underscores, characters outside `[A-Za-z0-9_]` removed. -/
def gnfBase (analysis : PyDict) : String :=
  stripNonWord (spaceToUnderscore (pyJoinL "_" ((gnfParts analysis).filter (fun p => p ≠ ""))))

/-- The base after the length guard (lines 704-709): truncated when `base + "." + extension` would exceed 200 characters. -/
def gnfTruncBase (analysis : PyDict) (ext : String) : String :=
  if (gnfBase analysis).data.length + ext.data.length + 1 > 200 then
    pySliceTo (gnfBase analysis) (200 - (ext.data.length : Int) - 1)
  else gnfBase analysis

/-- The candidate probed (and finally returned) for loop counter `c` (lines 717-723): `base.ext` for `c = 1`, `base_{c-1}.ext` afterwards. -/
def gnfCandidate (base ext : String) (c : Nat) : String :=
  (if c = 1 then base else base ++ "_" ++ toString (c - 1)) ++ "." ++ ext

/-- The collision loop (lines 718-722): probes candidates until `ex` reports no collision, returning the final counter. -/
def gnfFindCounter (ex : String → Bool) (dir base ext : String) : Nat → Nat → Nat
  | 0, c => c
  | fuel + 1, c =>
    if ex (pyJoinPath dir (gnfCandidate base ext c)) then gnfFindCounter ex dir base ext fuel (c + 1)
    else c

/-- script.py lines 685-723. -/
def generate_new_filename (ex : String → Bool) (fuel : Nat) (original_filename : String) (analysis : PyDict) : String :=
  let extension := pyLower (pyDrop (pySplitext original_filename).2 1)
  let base_filename := gnfTruncBase analysis extension
  if base_filename = "" then
    (pySplitext original_filename).1 ++ "_Img_Data." ++ extension
  else
    gnfCandidate base_filename extension
      (gnfFindCounter ex (pyDirname original_filename) base_filename extension fuel 1)

/-! ## Final report row (script.py, lines 725-781) -/

/-- The description-word loop of `generate_final_output` (lines 746-760): adds words of the persuasive description while at most 9 words were added and the running title length stays within 200. -/
def addDescWords (currentLen : Nat) : List String → String → Nat → String
  | [], acc, _ => acc
  | w :: ws, acc, count =>
    if count < 9 then
      if currentLen + acc.data.length + w.data.length + 1 ≤ 200 then
        addDescWords currentLen ws (acc ++ " " ++ w) (count + 1)
      else acc
    else acc

/-- The final length guard on the combined title (lines 767-772). -/
def capTitleAt200 (s : String) : String :=
  if s.data.length > 200 then pyRsplitHead (pyTake s 200) else s

/-- The combined title computed by `generate_final_output` (lines 732-772). -/
def finalTitle (analysis : PyDict) : String :=
  let suggested_title := dgetStr analysis "suggested_title" ""
  let persuasive_description := dgetStr analysis "persuasive_description" ""
  let parts1 := if suggested_title ≠ "" then ["Generative AI", suggested_title] else ["Generative AI"]
  let current_title_length := (pyStrip (pyJoinL " " parts1)).data.length
  let added_description :=
    if (200 : Int) - current_title_length > 0 then
      addDescWords current_title_length (pySplitWs persuasive_description) "" 0
    else ""
  let parts2 := if added_description ≠ "" then parts1 ++ [pyStrip added_description] else parts1
  capTitleAt200 (pyStrip (pyJoinL " " parts2))

/-- script.py lines 725-781: the Adobe-Stock report row. -/
def generate_final_output (analysis : PyDict) (original_filename category releases : String) : PyDict :=
  let suggested_title := dgetStr analysis "suggested_title" ""
  let persuasive_description := dgetStr analysis "persuasive_description" ""
  let keywords := generate_keywords analysis (suggested_title ++ " " ++ persuasive_description) persuasive_description
  let use_cases := suggest_use_cases analysis suggested_title persuasive_description
  [("Filename", PyVal.str original_filename),
   ("Title", PyVal.str (finalTitle analysis)),
   ("Keywords", PyVal.str (pyJoinL ", " keywords)),
   ("Category", PyVal.str category),
   ("Releases", PyVal.str releases),
   ("Use Cases", PyVal.str (pyJoinL ", " use_cases))]

/-! ## Per-image processing (script.py, lines 783-808)

The `try`/`except` of `process_image` is modelled by an `Option`: `some
analysis` is a run in which the analysis call returned `analysis` and no
exception was raised afterwards, `none` is a run in which some step of the
pipeline raised. -/

/-- The placeholder row built by the `except` branch of `process_image` (lines 800-807).  The source computes an unused `extension` local and omits the "Use Cases" column; the omission is preserved. -/
def processImagePlaceholder (original_filename : String) : PyDict :=
  [("Filename", PyVal.str original_filename),
   ("Title", PyVal.str "Unprocessed Image"),
   ("Keywords", PyVal.str ""),
   ("Category", PyVal.str ""),
   ("Releases", PyVal.str "")]

/-- script.py lines 783-808. -/
def process_image (step : Option PyDict) (image_path category releases : String) : PyDict :=
  let original_filename := pyBasename image_path
  match step with
  | some analysis => generate_final_output analysis original_filename category releases
  | none => processImagePlaceholder original_filename

/-! ## Analysis client (script.py, lines 35-146)

The remote model and the local file system are external collaborators:
what attempt `i` observes is `env i`.  A successful HTTP exchange is
`ApiOutcome.response blocked noCandidates text` (the prompt-feedback block
flag, the empty-candidate flag, and `response.text`); `transient` is a
`ResourceExhausted`/`ServiceUnavailable` exception; `failure` is any other
exception (for example an unreadable image file).  `json.loads` is the
oracle `jl : String → Option PyDict` (`none` models `JSONDecodeError`, and
also the `TypeError` handler, whose body is identical).  Sleeps are
recorded in order: `backoff d` for the exponential-backoff sleep of the
`except` clause, `cooldown` for the fixed `DELAY_BETWEEN_REQUESTS` sleep
the `finally` clause performs after every attempt. -/

/-- What one attempt of the analysis call observes. -/
inductive ApiOutcome where
  | response (blocked : Bool) (noCandidates : Bool) (text : String)
  | transient
  | failure
  deriving DecidableEq

/-- One recorded sleep. -/
inductive SleepEv where
  | backoff (d : Nat)
  | cooldown
  deriving DecidableEq, Repr

/-- script.py lines 38-45: the default placeholder result. -/
def default_error_response : PyDict :=
  [("suggested_title", PyVal.str "Unprocessed Image"),
   ("basic_description", PyVal.str "A basic description of the image."),
   ("persuasive_description", PyVal.str "A default description for images that cannot be analyzed."),
   ("key_styles", PyVal.list []),
   ("distinctive_elements", PyVal.list []),
   ("base_description", PyVal.str "A basic, plain description for fallback.")]

/-- script.py lines 113-118: `response.text.strip()` with an optional leading three-backtick-json marker and trailing three-backtick marker removed, re-stripping after each removal. -/
def stripFences (text : String) : String :=
  let json_text := pyStrip text
  let json_text :=
    if pyStartsWith json_text "```json" then pyStrip (pyDrop json_text ("```json".data.length))
    else json_text
  if pyEndsWith json_text "```" then pyStrip (pyTake json_text (json_text.data.length - "```".data.length))
  else json_text

/-- script.py lines 113-129: parse the fence-stripped body; on decode failure return the placeholder with its persuasive description overwritten by the raw response text. -/
def handleResponseText (jl : String → Option PyDict) (text : String) : PyDict :=
  match jl (stripFences text) with
  | some analysis_results => analysis_results
  | none => dset default_error_response "persuasive_description" (PyVal.str text)

/-- The retry loop of `analyze_image_content_gemini` (lines 46-146), by recursion on the number of remaining attempts.  Returns the result dict, the number of attempts made, and the ordered sleep trace. -/
def analyzeGo (jl : String → Option PyDict) (env : Nat → ApiOutcome) (initial_delay : Nat) :
    Nat → Nat → PyDict × Nat × List SleepEv
  | attempt, 0 => (default_error_response, attempt, [])
  | attempt, remaining + 1 =>
    match env attempt with
    | ApiOutcome.response blocked noCandidates text =>
      if blocked then (default_error_response, attempt + 1, [SleepEv.cooldown])
      else if noCandidates then (default_error_response, attempt + 1, [SleepEv.cooldown])
      else (handleResponseText jl text, attempt + 1, [SleepEv.cooldown])
    | ApiOutcome.failure => (default_error_response, attempt + 1, [SleepEv.cooldown])
    | ApiOutcome.transient =>
      if remaining = 0 then (default_error_response, attempt + 1, [SleepEv.cooldown])
      else
        let rest := analyzeGo jl env initial_delay (attempt + 1) remaining
        (rest.1, rest.2.1, SleepEv.backoff (initial_delay * 2 ^ attempt) :: SleepEv.cooldown :: rest.2.2)

/-- script.py lines 35-146. -/
def analyze_image_content_gemini (jl : String → Option PyDict) (env : Nat → ApiOutcome)
    (max_retries initial_delay : Nat) : PyDict × Nat × List SleepEv :=
  analyzeGo jl env initial_delay 0 max_retries

/-! ## Specification-side definitions

These restate parts of the specification text independently of the
translation above, for the refinement-style theorems below. -/

/-- Spec-side backoff trace: a run of `k` transient attempts starting at `attempt` sleeps `delay * 2 ^ attemptIndex` before each retry, with the fixed cooldown after every attempt. -/
def backoffTrace (delay : Nat) : Nat → Nat → List SleepEv
  | _, 0 => []
  | _, 1 => [SleepEv.cooldown]
  | attempt, k + 2 =>
    SleepEv.backoff (delay * 2 ^ attempt) :: SleepEv.cooldown :: backoffTrace delay (attempt + 1) (k + 1)

/-- Spec-side tag selection: the tags of the rules that fired. -/
def firedTags (rules : List (Bool × String)) : List String :=
  (rules.filter (fun r => r.1)).map (fun r => r.2)

/-- Spec-side tag list: the fired tags mapped through the abbreviation table and truncated to 3, or the single default tag when no rule fired. -/
def tagChoice (dflt : String) (fired : List String) : List String :=
  if fired = [] then [dflt] else (fired.map (fun x => abbrevGet x x)).take 3

/-- The five use-case rules of the spec, evaluated on a token set. -/
def ucRuleFlags (keywords : List String) : List (Bool × String) :=
  [(decide ("advertising" ∈ keywords ∨ "commercial" ∈ keywords ∨ "marketing" ∈ keywords), "Commercial"),
   (decide ("editorial" ∈ keywords), "Editorial"),
   (decide ("social" ∈ keywords ∨ "media" ∈ keywords), "Social Media"),
   (decide ("web" ∈ keywords ∨ "design" ∈ keywords), "Web Design"),
   (decide ("creative" ∈ keywords ∨ "art" ∈ keywords ∨ "illustration" ∈ keywords ∨ "painting" ∈ keywords ∨ "drawing" ∈ keywords), "Creative")]

/-- The six target-audience rules of the spec, evaluated on a token set. -/
def taRuleFlags (keywords : List String) : List (Bool × String) :=
  [(decide ("artists" ∈ keywords ∨ "art" ∈ keywords), "Artists"),
   (decide ("designers" ∈ keywords ∨ "design" ∈ keywords), "Designers"),
   (decide ("marketers" ∈ keywords ∨ "marketing" ∈ keywords), "Marketers"),
   (decide ("editors" ∈ keywords ∨ "editorial" ∈ keywords), "Editors"),
   (decide ("content" ∈ keywords ∨ "creators" ∈ keywords), "Content Creators"),
   (decide ("small" ∈ keywords ∨ "business" ∈ keywords), "Small Business")]

/-! ## Concrete fixtures for witnesses and counterexamples -/

/-- A 190-character extension, used to exercise the filename length guard. -/
def extE : String := ⟨List.replicate 190 'e'⟩

/-- An original filename whose extension is 190 characters long. -/
def origC2 : String := "a." ++ extE

/-- A directory state in which exactly the untruncated first candidate already exists. -/
def exC2 : String → Bool := fun p => p == ("Image_Dat." ++ extE)

/-- A JSON oracle that fails on every input. -/
def jlNoneOracle : String → Option PyDict := fun _ => none

/-- A JSON oracle that parses exactly the empty object. -/
def jlEmptyObj : String → Option PyDict := fun s => if s == "\x7b\x7d" then some [] else none

/-- An environment whose first response is content-policy blocked. -/
def envBlk : Nat → ApiOutcome := fun _ => ApiOutcome.response true false "x"

/-- An environment whose first response is a non-JSON body. -/
def envOops : Nat → ApiOutcome := fun _ => ApiOutcome.response false false "oops"

/-- An environment that fails transiently twice, then returns an empty JSON object. -/
def envFailTwice : Nat → ApiOutcome :=
  fun i => if i < 2 then ApiOutcome.transient else ApiOutcome.response false false "\x7b\x7d"

/-- An environment in which every attempt fails transiently. -/
def envAllTransient : Nat → ApiOutcome := fun _ => ApiOutcome.transient

/-- The fenced response body of the spec example. -/
def rfText : String := "```json\n\x7b\"suggested_title\":\"Red Fox\"\x7d\n```"

/-- The fence-stripped JSON body of the spec example. -/
def rfJSON : String := "\x7b\"suggested_title\":\"Red Fox\"\x7d"

/-- What `json.loads` yields on `rfJSON`: a dict with the single parsed field. -/
def rfDict : PyDict := [("suggested_title", PyVal.str "Red Fox")]

/-- A JSON oracle modelling `json.loads` on the spec example body. -/
def jlRF : String → Option PyDict := fun s => if s == rfJSON then some rfDict else none

/-- An environment returning the fenced spec example body. -/
def envRF : Nat → ApiOutcome := fun _ => ApiOutcome.response false false rfText

/-! # Theorems -/

set_option maxRecDepth 4096

/-! ## General helper lemmas -/

theorem string_length_data (s : String) : s.length = s.data.length := rfl

theorem string_data_append (a b : String) : (a ++ b).data = a.data ++ b.data := rfl

theorem string_length_append (a b : String) : (a ++ b).length = a.length + b.length :=
  String.length_append a b

theorem dropWhile_length_le {α : Type} (p : α → Bool) (l : List α) :
    (l.dropWhile p).length ≤ l.length := by
  induction l with
  | nil => exact le_refl _
  | cons a l ih =>
    by_cases h : p a
    · rw [List.dropWhile_cons_of_pos h, List.length_cons]
      exact le_trans ih (Nat.le_succ _)
    · rw [List.dropWhile_cons_of_neg h]

theorem pyTake_length_le (s : String) (n : Nat) : (pyTake s n).length ≤ n := by
  rw [string_length_data]
  exact List.length_take_le n s.data

theorem pyRsplitHead_length_le (s : String) : (pyRsplitHead s).length ≤ s.length := by
  unfold pyRsplitHead
  split
  · rw [string_length_data, string_length_data]
    show ((s.data.reverse.dropWhile (fun c => c ≠ ' ')).tail).reverse.length ≤ s.data.length
    rw [List.length_reverse, List.length_tail]
    have h1 := dropWhile_length_le (fun c : Char => c ≠ ' ') s.data.reverse
    rw [List.length_reverse] at h1
    omega
  · exact le_refl _

theorem capTitleAt200_le (s : String) : (capTitleAt200 s).length ≤ 200 := by
  unfold capTitleAt200
  split
  · exact le_trans (pyRsplitHead_length_le _) (pyTake_length_le s 200)
  · simp only [string_length_data]; omega

/-! ## C1: report-row title length -/

/-- C1: for every AnalysisResult and original filename (and category/releases), the Title field of the report row produced by generate_final_output has length at most 200 characters, regardless of how long the suggested title and persuasive description are. -/
theorem final_output_title_le_200 (analysis : PyDict) (original_filename category releases : String) :
    (dgetStr (generate_final_output analysis original_filename category releases) "Title" "").length ≤ 200 := by
  have h : dgetStr (generate_final_output analysis original_filename category releases) "Title" ""
      = finalTitle analysis := rfl
  rw [h]
  show (capTitleAt200 _).length ≤ 200
  exact capTitleAt200_le _

/-! ## C2: new-filename length -/

theorem gnfTruncBase_bound (analysis : PyDict) (ext : String)
    (hlen : ext.data.length + 1 ≤ 200) :
    (gnfTruncBase analysis ext).data.length + ext.data.length + 1 ≤ 200 := by
  unfold gnfTruncBase
  split
  · unfold pySliceTo
    rw [if_pos (by omega)]
    have h1 : (pyTake (gnfBase analysis) ((200 : Int) - (ext.data.length : Int) - 1).toNat).length
        ≤ ((200 : Int) - (ext.data.length : Int) - 1).toNat := pyTake_length_le _ _
    rw [string_length_data] at h1
    omega
  · omega

/-- C2 (amended): when the truncated sanitized base is empty, generate_new_filename falls back to the original name with the fixed suffix `_Img_Data` and the original extension; when the truncated base is nonempty, the extension (with its dot) fits in the 200-character budget, and the first probed candidate is free in the destination directory (so that no numeric uniqueness suffix is appended), the returned name has length at most 200.  (As the counterexample shows, a numeric uniqueness suffix can push the name past 200, because it is appended after the length guard.) -/
theorem generate_new_filename_spec (analysis : PyDict) (ex : String → Bool) (fuel : Nat)
    (original_filename ext : String)
    (hext : ext = pyLower (pyDrop (pySplitext original_filename).2 1)) :
    (gnfTruncBase analysis ext = "" →
      generate_new_filename ex fuel original_filename analysis
        = (pySplitext original_filename).1 ++ "_Img_Data." ++ ext)
    ∧ (gnfTruncBase analysis ext ≠ "" →
      ext.data.length + 1 ≤ 200 →
      ex (pyJoinPath (pyDirname original_filename)
          (gnfCandidate (gnfTruncBase analysis ext) ext 1)) = false →
      (generate_new_filename ex fuel original_filename analysis).length ≤ 200) := by
  subst hext
  constructor
  · intro h
    unfold generate_new_filename
    rw [if_pos h]
  · intro hne hlen hex
    unfold generate_new_filename
    rw [if_neg hne]
    have hc : gnfFindCounter ex (pyDirname original_filename)
        (gnfTruncBase analysis (pyLower (pyDrop (pySplitext original_filename).2 1)))
        (pyLower (pyDrop (pySplitext original_filename).2 1)) fuel 1 = 1 := by
      cases fuel with
      | zero => rfl
      | succ n => unfold gnfFindCounter; rw [hex]; rfl
    rw [hc]
    unfold gnfCandidate
    rw [if_pos rfl]
    have hb := gnfTruncBase_bound analysis (pyLower (pyDrop (pySplitext original_filename).2 1)) hlen
    simp only [string_length_data, string_data_append, List.length_append]
    have hdot : (['.'] : List Char).length = 1 := rfl
    omega

/-- C2 (counterexample): with an empty analysis result, an original filename `a.<190 e's>`, and a destination directory already containing the first candidate, generate_new_filename returns a 202-character name — the numeric uniqueness suffix `_1` is appended after the 200-character length guard. -/
theorem generate_new_filename_cex :
    (generate_new_filename exC2 10 origC2 []).length = 202 := by decide

/-- C2 (witness): a concrete instantiation of generate_new_filename_spec with a collision-free directory and a short extension. -/
theorem generate_new_filename_spec_witness :
    (generate_new_filename (fun _ => false) 5 "photo.jpg" []).length ≤ 200 :=
  (generate_new_filename_spec [] (fun _ => false) 5 "photo.jpg" "jpg" (by decide)).2
    (by decide) (by decide) rfl

/-! ## C3: retry with exponential backoff -/

theorem analyzeGo_all_transient (jl : String → Option PyDict) (env : Nat → ApiOutcome)
    (delay : Nat) :
    ∀ k, 1 ≤ k → ∀ attempt, (∀ i, i < k → env (attempt + i) = ApiOutcome.transient) →
      analyzeGo jl env delay attempt k
        = (default_error_response, attempt + k, backoffTrace delay attempt k) := by
  intro k
  induction k with
  | zero => omega
  | succ k ih =>
    intro _ attempt h
    cases k with
    | zero =>
      have h0 := h 0 (by omega)
      rw [Nat.add_zero] at h0
      unfold analyzeGo
      rw [h0]
      rfl
    | succ k' =>
      have h0 := h 0 (by omega)
      rw [Nat.add_zero] at h0
      have ih' := ih (by omega) (attempt + 1) (fun i hi => by
        have := h (i + 1) (by omega)
        rwa [show attempt + (i + 1) = attempt + 1 + i by omega] at this)
      unfold analyzeGo
      rw [h0]
      simp only [ih']
      have harith : attempt + 1 + (k' + 1) = attempt + (k' + 1 + 1) := by omega
      rw [harith]
      rfl

/-- C3: when the analysis call raises a transient or rate-limit error, analyze_image_content_gemini retries up to the configured maximum attempt count, sleeping initial_delay * 2 ^ attemptIndex (attemptIndex zero-based) before each retry in addition to the fixed per-attempt cooldown; a run that fails twice and then succeeds sleeps initial_delay * 1 then initial_delay * 2 and returns the successfully parsed result, and a run in which every attempt fails transiently makes exactly max_retries attempts and returns the default placeholder result. -/
theorem analyze_transient_retry_spec (jl : String → Option PyDict) (env : Nat → ApiOutcome)
    (max_retries initial_delay : Nat) (t : String) (d : PyDict) :
    (3 ≤ max_retries → env 0 = ApiOutcome.transient → env 1 = ApiOutcome.transient →
      env 2 = ApiOutcome.response false false t → jl (stripFences t) = some d →
      analyze_image_content_gemini jl env max_retries initial_delay
        = (d, 3, [SleepEv.backoff (initial_delay * 1), SleepEv.cooldown,
                  SleepEv.backoff (initial_delay * 2), SleepEv.cooldown, SleepEv.cooldown]))
    ∧ (1 ≤ max_retries → (∀ i, i < max_retries → env i = ApiOutcome.transient) →
      analyze_image_content_gemini jl env max_retries initial_delay
        = (default_error_response, max_retries, backoffTrace initial_delay 0 max_retries)) := by
  constructor
  · intro hmr h0 h1 h2 hjl
    obtain ⟨k, rfl⟩ : ∃ k, max_retries = k + 3 := ⟨max_retries - 3, by omega⟩
    unfold analyze_image_content_gemini
    unfold analyzeGo
    rw [h0]
    simp only [Nat.add_eq, Nat.succ_ne_zero, if_neg (Nat.succ_ne_zero (k + 1))]
    unfold analyzeGo
    rw [h1]
    simp only [if_neg (Nat.succ_ne_zero k)]
    unfold analyzeGo
    rw [h2]
    simp only [handleResponseText, hjl]
    norm_num
  · intro hmr h
    unfold analyze_image_content_gemini
    have := analyzeGo_all_transient jl env initial_delay max_retries hmr 0 (fun i hi => by
      have := h i hi
      rwa [Nat.zero_add])
    rw [this, Nat.zero_add]

/-- C3 (witness): a run that fails transiently twice and then returns an empty JSON object sleeps 1 then 2 seconds of backoff (initial delay 1) and returns the parsed result after 3 attempts; a run in which all 5 attempts fail transiently returns the placeholder after 5 attempts with the full backoff trace. -/
theorem analyze_transient_retry_witness :
    analyze_image_content_gemini jlEmptyObj envFailTwice 5 1
      = ([], 3, [SleepEv.backoff 1, SleepEv.cooldown, SleepEv.backoff 2, SleepEv.cooldown,
                 SleepEv.cooldown])
    ∧ analyze_image_content_gemini jlEmptyObj envAllTransient 5 1
      = (default_error_response, 5, backoffTrace 1 0 5) :=
  ⟨(analyze_transient_retry_spec jlEmptyObj envFailTwice 5 1 "\x7b\x7d" []).1
      (by omega) (by decide) (by decide) (by decide) (by decide),
   (analyze_transient_retry_spec jlEmptyObj envAllTransient 5 1 "\x7b\x7d" []).2
      (by omega) (fun i _ => rfl)⟩

/-! ## C4: content-policy block and empty candidates are not retried -/

/-- C4: if the first attempt's response reports a content-policy block, or carries zero candidates, analyze_image_content_gemini returns the default placeholder result immediately: one attempt, no backoff sleep, only the fixed cooldown. -/
theorem analyze_blocked_no_retry (jl : String → Option PyDict) (env : Nat → ApiOutcome)
    (max_retries initial_delay : Nat) (blocked noCandidates : Bool) (t : String)
    (hmr : 1 ≤ max_retries)
    (h0 : env 0 = ApiOutcome.response blocked noCandidates t)
    (hbn : blocked = true ∨ noCandidates = true) :
    analyze_image_content_gemini jl env max_retries initial_delay
      = (default_error_response, 1, [SleepEv.cooldown]) := by
  obtain ⟨m, rfl⟩ : ∃ m, max_retries = m + 1 := ⟨max_retries - 1, by omega⟩
  unfold analyze_image_content_gemini analyzeGo
  rw [h0]
  rcases hbn with hb | hn
  · subst hb
    rfl
  · subst hn
    cases blocked <;> rfl

/-- C4 (witness): a concrete blocked response returns the placeholder after exactly one attempt. -/
theorem analyze_blocked_no_retry_witness :
    analyze_image_content_gemini jlNoneOracle envBlk 5 1
      = (default_error_response, 1, [SleepEv.cooldown]) :=
  analyze_blocked_no_retry jlNoneOracle envBlk 5 1 true false "x" (by omega) rfl (Or.inl rfl)

/-! ## C5: parse failure keeps the raw text in the persuasive description -/

theorem dget_dset_self (d : PyDict) (k : String) (v : PyVal) :
    dget (dset d k v) k = some v := by
  induction d with
  | nil => simp [dset, dget]
  | cons p rest ih =>
    by_cases h : p.1 == k
    · simp [dset, dget, h]
    · simp [dset, dget, h, ih]

theorem dget_dset_ne (d : PyDict) (k k' : String) (v : PyVal) (h : k' ≠ k) :
    dget (dset d k v) k' = dget d k' := by
  have hne : ¬ (k = k') := fun hh => h hh.symm
  induction d with
  | nil => simp [dset, dget, hne]
  | cons p rest ih =>
    by_cases hp : p.1 == k
    · have hpk : p.1 = k := by simpa using hp
      simp [dset, dget, hp, hpk, hne]
    · simp [dset, dget, hp, ih]

/-- C5: if the fence-stripped response body fails to parse as JSON, analyze_image_content_gemini returns — without retrying, after a single attempt — the default placeholder result whose persuasive-description field is overwritten with the raw response text, every other placeholder field unchanged. -/
theorem analyze_parse_failure_spec (jl : String → Option PyDict) (env : Nat → ApiOutcome)
    (max_retries initial_delay : Nat) (t : String)
    (hmr : 1 ≤ max_retries)
    (h0 : env 0 = ApiOutcome.response false false t)
    (hjl : jl (stripFences t) = none) :
    analyze_image_content_gemini jl env max_retries initial_delay
      = (dset default_error_response "persuasive_description" (PyVal.str t), 1,
         [SleepEv.cooldown])
    ∧ dget (analyze_image_content_gemini jl env max_retries initial_delay).1
        "persuasive_description" = some (PyVal.str t)
    ∧ ∀ k, k ≠ "persuasive_description" →
        dget (analyze_image_content_gemini jl env max_retries initial_delay).1 k
          = dget default_error_response k := by
  obtain ⟨m, rfl⟩ : ∃ m, max_retries = m + 1 := ⟨max_retries - 1, by omega⟩
  have hmain : analyze_image_content_gemini jl env (m + 1) initial_delay
      = (dset default_error_response "persuasive_description" (PyVal.str t), 1,
         [SleepEv.cooldown]) := by
    unfold analyze_image_content_gemini analyzeGo
    rw [h0]
    simp only [handleResponseText, hjl]
    rfl
  refine ⟨hmain, ?_, ?_⟩
  · rw [hmain]
    exact dget_dset_self _ _ _
  · intro k hk
    rw [hmain]
    exact dget_dset_ne _ _ _ _ hk

/-- C5 (witness): a concrete non-JSON body is preserved verbatim in the persuasive-description field of the returned placeholder. -/
theorem analyze_parse_failure_witness :
    analyze_image_content_gemini jlNoneOracle envOops 5 1
      = (dset default_error_response "persuasive_description" (PyVal.str "oops"), 1,
         [SleepEv.cooldown]) :=
  (analyze_parse_failure_spec jlNoneOracle envOops 5 1 "oops" (by omega) rfl rfl).1

/-! ## C6: fenced JSON example -/

/-- C6 (counterexample): on the fenced body of the spec example, the function returns exactly the parsed one-field dict; the basic-description field is missing from the result entirely — it does not carry the default placeholder value, which default_error_response shows would be "A basic description of the image.". -/
theorem analyze_fenced_cex :
    (analyze_image_content_gemini jlRF envRF 5 1).1 = rfDict
    ∧ dget (analyze_image_content_gemini jlRF envRF 5 1).1 "basic_description" = none
    ∧ dget default_error_response "basic_description"
        = some (PyVal.str "A basic description of the image.") := by
  refine ⟨?_, ?_, ?_⟩ <;> decide

/-- C6 (amended): on the response body consisting of the example JSON wrapped in a leading three-backtick-json marker and a trailing three-backtick marker, analyze_image_content_gemini strips both markers, hands exactly the inner JSON text to the JSON decoder, and returns the decoded result verbatim: its suggested_title is "Red Fox" and fields missing from the JSON are absent from the result (accessors substitute their defaults later, at each use site). -/
theorem analyze_fenced_spec (jl : String → Option PyDict) (env : Nat → ApiOutcome)
    (max_retries initial_delay : Nat)
    (hmr : 1 ≤ max_retries)
    (henv : env 0 = ApiOutcome.response false false rfText)
    (hjl : jl rfJSON = some rfDict) :
    stripFences rfText = rfJSON
    ∧ (analyze_image_content_gemini jl env max_retries initial_delay).1 = rfDict
    ∧ dgetStr (analyze_image_content_gemini jl env max_retries initial_delay).1
        "suggested_title" "" = "Red Fox"
    ∧ dget (analyze_image_content_gemini jl env max_retries initial_delay).1
        "basic_description" = none := by
  have hs : stripFences rfText = rfJSON := by decide
  obtain ⟨m, rfl⟩ : ∃ m, max_retries = m + 1 := ⟨max_retries - 1, by omega⟩
  have hmain : (analyze_image_content_gemini jl env (m + 1) initial_delay).1 = rfDict := by
    unfold analyze_image_content_gemini analyzeGo
    rw [henv]
    simp only [handleResponseText, hs, hjl]
    rfl
  refine ⟨hs, hmain, ?_, ?_⟩ <;> rw [hmain] <;> decide

/-- C6 (witness): a concrete instantiation of analyze_fenced_spec with the oracle that decodes exactly the example JSON. -/
theorem analyze_fenced_spec_witness :
    stripFences rfText = rfJSON
    ∧ (analyze_image_content_gemini jlRF envRF 5 1).1 = rfDict
    ∧ dgetStr (analyze_image_content_gemini jlRF envRF 5 1).1 "suggested_title" "" = "Red Fox"
    ∧ dget (analyze_image_content_gemini jlRF envRF 5 1).1 "basic_description" = none :=
  analyze_fenced_spec jlRF envRF 5 1 (by omega) rfl (by decide)

/-! ## C7: keyword list -/

theorem insertSet_nodup (s : List String) (x : String) (h : s.Nodup) :
    (insertSet s x).Nodup := by
  unfold insertSet
  split
  · exact h
  · rename_i hx
    simp [List.nodup_append, h, hx]

theorem foldl_insertSet_nodup (l : List String) :
    ∀ acc : List String, acc.Nodup → (l.foldl insertSet acc).Nodup := by
  induction l with
  | nil => intro acc h; exact h
  | cons x l ih => intro acc h; exact ih _ (insertSet_nodup _ _ h)

theorem addKeyword_nodup (a : List String) (w : String) (h : a.Nodup) :
    (addKeyword a w).Nodup := by
  unfold addKeyword
  split
  · exact foldl_insertSet_nodup _ _ h
  · exact insertSet_nodup _ _ h

theorem foldl_addKeyword_nodup (ws : List String) :
    ∀ acc : List String, acc.Nodup → (ws.foldl addKeyword acc).Nodup := by
  induction ws with
  | nil => intro acc h; exact h
  | cons w ws ih => intro acc h; exact ih _ (addKeyword_nodup _ _ h)

theorem rawKeywords_nodup (analysis : PyDict) (title : String) :
    (rawKeywords analysis title).Nodup := by
  unfold rawKeywords
  have hgen : ∀ ts : List String, ∀ acc : List String, acc.Nodup →
      (ts.foldl (fun a t => (pySplitWs t).foldl addKeyword a) acc).Nodup := by
    intro ts
    induction ts with
    | nil => intro acc h; exact h
    | cons t ts ih => intro acc h; exact ih _ (foldl_addKeyword_nodup _ _ h)
  exact hgen _ _ List.nodup_nil

/-- C7 (counterexample): an AnalysisResult whose keyword-list fields contain "zebra" but whose title and description texts are empty yields an empty keyword list — the keyword-list fields are never consulted, so the result is not the claimed union. -/
theorem generate_keywords_cex :
    generate_keywords
      [("descriptive_keywords", PyVal.list ["zebra"]), ("key_styles", PyVal.list ["zebra"])]
      "" "" = [] := by decide

/-- C7 (amended): generate_keywords returns a duplicate-free list of at most 25 entries, none of which is a stop word, built solely from the tokens of the title argument and the result's basic/persuasive description texts (with synonym substitution); the result's keyword-list fields are not consulted — any two AnalysisResults agreeing on the two description fields yield identical keyword lists. -/
theorem generate_keywords_spec (analysis : PyDict) (title description : String) :
    (generate_keywords analysis title description).Nodup
    ∧ (generate_keywords analysis title description).length ≤ 25
    ∧ (∀ k ∈ generate_keywords analysis title description, k ∉ commonWords)
    ∧ ∀ analysis' : PyDict,
        dgetStr analysis' "basic_description" "" = dgetStr analysis "basic_description" "" →
        dgetStr analysis' "persuasive_description" ""
          = dgetStr analysis "persuasive_description" "" →
        generate_keywords analysis' title description
          = generate_keywords analysis title description := by
  refine ⟨?_, ?_, ?_, ?_⟩
  · unfold generate_keywords
    exact List.Nodup.sublist (List.take_sublist _ _)
      (List.Nodup.filter _ (rawKeywords_nodup analysis title))
  · unfold generate_keywords
    exact List.length_take_le _ _
  · intro k hk
    unfold generate_keywords at hk
    have hf := List.mem_of_mem_take hk
    have := List.of_mem_filter hf
    simpa using this
  · intro analysis' h1 h2
    unfold generate_keywords rawKeywords textsToProcess
    rw [h1, h2]

/-- C7 (witness): a concrete keyword derivation is duplicate-free, within the 25-entry cap, and unchanged by adding a keyword-list field to the AnalysisResult. -/
theorem generate_keywords_spec_witness :
    (generate_keywords [("basic_description", PyVal.str "A sunset over the lake")]
      "Serene view" "").Nodup
    ∧ (generate_keywords [("basic_description", PyVal.str "A sunset over the lake")]
        "Serene view" "").length ≤ 25
    ∧ generate_keywords
        [("basic_description", PyVal.str "A sunset over the lake"),
         ("descriptive_keywords", PyVal.list ["zebra"])] "Serene view" ""
      = generate_keywords [("basic_description", PyVal.str "A sunset over the lake")]
          "Serene view" "" :=
  ⟨(generate_keywords_spec [("basic_description", PyVal.str "A sunset over the lake")]
      "Serene view" "").1,
   (generate_keywords_spec [("basic_description", PyVal.str "A sunset over the lake")]
      "Serene view" "").2.1,
   (generate_keywords_spec [("basic_description", PyVal.str "A sunset over the lake")]
      "Serene view" "").2.2.2
     [("basic_description", PyVal.str "A sunset over the lake"),
      ("descriptive_keywords", PyVal.list ["zebra"])] (by decide) (by decide)⟩

/-! ## C8: main title derivation -/

/-- C8 (counterexample): a key-style keyword keeps its non-word characters (only spaces are removed from key styles), so "a-b" yields the title "A-b" rather than the claimed stripped form "Ab"; and with an empty AnalysisResult the final fallback is the constant " - Image" — the filename component is always empty, since the function derives it from `os.path.basename("")` and takes no filename argument. -/
theorem generate_main_title_cex :
    generate_main_title [("key_styles", PyVal.list ["a-b"])] = "A-b"
    ∧ generate_main_title [] = " - Image" := by
  constructor <;> decide

/-- C8 (amended): generate_main_title returns the suggested title verbatim when it is a nonempty string; otherwise a title synthesized from up to the first two key-style keywords (spaces removed, other non-word characters kept) and up to the first two distinctive-element keywords (non-word characters stripped), space-joined and capitalized, whenever at least one such keyword is nonempty; otherwise the basic description truncated to 50 characters and capitalized; otherwise the constant placeholder " - Image" (whose filename-derived part is always empty). -/
theorem generate_main_title_spec (analysis : PyDict) :
    (dgetStr analysis "suggested_title" "" ≠ "" →
      generate_main_title analysis = dgetStr analysis "suggested_title" "")
    ∧ (dgetStr analysis "suggested_title" "" = "" → mtParts analysis ≠ [] →
      generate_main_title analysis = pyCapitalize (pyJoinL " " (mtParts analysis)))
    ∧ (dgetStr analysis "suggested_title" "" = "" → mtParts analysis = [] →
        dgetStr analysis "basic_description" "" ≠ "" →
      generate_main_title analysis
        = pyCapitalize (pyTake (dgetStr analysis "basic_description" "") 50))
    ∧ (dgetStr analysis "suggested_title" "" = "" → mtParts analysis = [] →
        dgetStr analysis "basic_description" "" = "" →
      generate_main_title analysis = " - Image") := by
  refine ⟨?_, ?_, ?_, ?_⟩
  · intro h
    unfold generate_main_title
    rw [if_pos h]
  · intro h hp
    unfold generate_main_title
    rw [if_neg (by simp [h]), if_pos (show mtParts analysis ≠ [] from hp)]
  · intro h hp hb
    unfold generate_main_title
    rw [if_neg (by simp [h]), if_neg (show ¬ mtParts analysis ≠ [] by simp [hp]),
        if_pos hb]
  · intro h hp hb
    unfold generate_main_title
    rw [if_neg (by simp [h]), if_neg (show ¬ mtParts analysis ≠ [] by simp [hp]),
        if_neg (by simp [hb])]
    rfl

/-- C8 (witness): a present suggested title is returned verbatim. -/
theorem generate_main_title_spec_witness :
    generate_main_title [("suggested_title", PyVal.str "Sunset")] = "Sunset" :=
  (generate_main_title_spec [("suggested_title", PyVal.str "Sunset")]).1 (by decide)

/-! ## C9: use-case and target-audience tags -/

theorem tagChoice_length_le (dflt : String) (fired : List String) :
    (tagChoice dflt fired).length ≤ 3 := by
  unfold tagChoice
  split
  · simp
  · exact le_trans (List.length_take_le _ _) (le_refl _)

theorem suggest_use_cases_eq (analysis : PyDict) (title description : String) :
    suggest_use_cases analysis title description
      = tagChoice "Image" (firedTags (ucRuleFlags (kwTokens analysis title))) := by
  by_cases h1 : "advertising" ∈ kwTokens analysis title ∨ "commercial" ∈ kwTokens analysis title ∨ "marketing" ∈ kwTokens analysis title <;>
  by_cases h2 : "editorial" ∈ kwTokens analysis title <;>
  by_cases h3 : "social" ∈ kwTokens analysis title ∨ "media" ∈ kwTokens analysis title <;>
  by_cases h4 : "web" ∈ kwTokens analysis title ∨ "design" ∈ kwTokens analysis title <;>
  by_cases h5 : "creative" ∈ kwTokens analysis title ∨ "art" ∈ kwTokens analysis title ∨ "illustration" ∈ kwTokens analysis title ∨ "painting" ∈ kwTokens analysis title ∨ "drawing" ∈ kwTokens analysis title <;>
  simp [suggest_use_cases, ucRuleFlags, firedTags, tagChoice, h1, h2, h3, h4, h5]

theorem suggest_target_audience_eq (analysis : PyDict) (title description : String) :
    suggest_target_audience analysis title description
      = tagChoice "Data" (firedTags (taRuleFlags (kwTokens analysis title))) := by
  by_cases h1 : "artists" ∈ kwTokens analysis title ∨ "art" ∈ kwTokens analysis title <;>
  by_cases h2 : "designers" ∈ kwTokens analysis title ∨ "design" ∈ kwTokens analysis title <;>
  by_cases h3 : "marketers" ∈ kwTokens analysis title ∨ "marketing" ∈ kwTokens analysis title <;>
  by_cases h4 : "editors" ∈ kwTokens analysis title ∨ "editorial" ∈ kwTokens analysis title <;>
  by_cases h5 : "content" ∈ kwTokens analysis title ∨ "creators" ∈ kwTokens analysis title <;>
  by_cases h6 : "small" ∈ kwTokens analysis title ∨ "business" ∈ kwTokens analysis title <;>
  simp [suggest_target_audience, taRuleFlags, firedTags, tagChoice, h1, h2, h3, h4, h5, h6]

/-- C9: suggest_use_cases and suggest_target_audience return exactly the tags of the keyword-matching rules that fired, each mapped through the abbreviation table and truncated to at most 3 entries; when no rule fires they return the single default tag "Image" and "Data" respectively; the returned lists never exceed 3 entries. -/
theorem suggest_tags_spec (analysis : PyDict) (title description : String) :
    suggest_use_cases analysis title description
      = tagChoice "Image" (firedTags (ucRuleFlags (kwTokens analysis title)))
    ∧ suggest_target_audience analysis title description
      = tagChoice "Data" (firedTags (taRuleFlags (kwTokens analysis title)))
    ∧ (suggest_use_cases analysis title description).length ≤ 3
    ∧ (suggest_target_audience analysis title description).length ≤ 3 := by
  refine ⟨suggest_use_cases_eq analysis title description,
          suggest_target_audience_eq analysis title description, ?_, ?_⟩
  · rw [suggest_use_cases_eq analysis title description]
    exact tagChoice_length_le _ _
  · rw [suggest_target_audience_eq analysis title description]
    exact tagChoice_length_le _ _

/-! ## C10: category and releases in report rows -/

/-- C10 (counterexample): when processing raises and the placeholder row is produced, the Category and Releases fields are empty strings, not the values passed on the command line. -/
theorem process_image_cex :
    dgetStr (process_image none "img.jpg" "123" "Model Alice") "Category" "" ≠ "123"
    ∧ dgetStr (process_image none "img.jpg" "123" "Model Alice") "Releases" "" ≠ "Model Alice" := by
  constructor <;> decide

/-- C10 (amended): on a successful run the Category and Releases fields of the report row equal, verbatim, the category code and release-name list passed on the command line; when processing raises, the image yields the placeholder row, whose Category and Releases fields are empty regardless of the passed values. -/
theorem process_image_spec (analysis : PyDict) (image_path category releases : String) :
    dget (process_image (some analysis) image_path category releases) "Category"
      = some (PyVal.str category)
    ∧ dget (process_image (some analysis) image_path category releases) "Releases"
      = some (PyVal.str releases)
    ∧ process_image none image_path category releases
      = processImagePlaceholder (pyBasename image_path)
    ∧ dget (process_image none image_path category releases) "Category"
      = some (PyVal.str "")
    ∧ dget (process_image none image_path category releases) "Releases"
      = some (PyVal.str "") := by
  refine ⟨rfl, rfl, rfl, rfl, rfl⟩
